import Mathlib

/-!
Shallow embedding of the channel-rpc protocol engine (src/src/index.ts) and
proofs about it.

The embedding models JavaScript values as an inductive `JsValue`, property
access (including the fact that reading a property of `null`/`undefined`
throws) as `getProp?`, and the stateful pieces of the code — the client's
pending-call `Map` and the single-resolution deferred with timeout — by
explicit state passing.  Asynchronous handler completion (a value after
`await`, or a synchronous throw / rejected promise) is modelled with
`Except`: `.ok v` is an awaited result, `.error e` a thrown/rejected value.

Definitions keep the source's names where possible: `isJsonRpcRequest`,
`isJsonRpcSuccessResponse`, `isJsonRpcErrorResponse`, `generateUUID`,
`defer`, `handleMessage` (ChannelServer.#handleMessage), `sendRequest`
(ChannelClient.#sendRequest), `portMessageHandler`
(ChannelClient.#portMessageHandler), and the handshake listeners installed by
`ChannelServer`'s constructor and `ChannelClient.#startHandshake`.

One source fact is central: `#handleMessage` and `#portMessageHandler` are
ordinary private methods assigned UNBOUND as `onmessage` handlers
(index.ts lines 121 and 272).  An `onmessage` callback runs with `this`
set to the event's current target — the MessagePort — and ES private-member
access performs a brand check, so every `this.#...` read inside these two
methods throws a TypeError at runtime.  Both are therefore modelled as
functions of their receiver (`thisHasBrand`), and the listeners the program
actually installs are the `thisHasBrand = false` instances
(`port1MessageListener`, `portOnMessage`), which can never post a reply or
settle a pending call.
-/

set_option autoImplicit false

namespace ChannelRpc

/-- A JavaScript value, as far as the protocol engine inspects one:
`undefined`, `null`, booleans, numbers (the code only compares them and
stores them, so `Int` suffices), strings, arrays and plain objects
(ordered field lists, unique keys). -/
inductive JsValue where
  | undefined : JsValue
  | null : JsValue
  | bool : Bool → JsValue
  | num : Int → JsValue
  | str : String → JsValue
  | arr : List JsValue → JsValue
  | obj : List (String × JsValue) → JsValue

/-- JavaScript truthiness: `false`, `0`, the empty string, `null` and
`undefined` are falsy; every other value (including any object or array)
is truthy. -/
def truthy : JsValue → Bool
  | .undefined => false
  | .null => false
  | .bool b => b
  | .num n => n != 0
  | .str s => s != ""
  | .arr _ => true
  | .obj _ => true

/-- First field with the given key in an object's field list (JS object
keys are unique, so first = only). -/
def lookupField : List (String × JsValue) → String → Option JsValue
  | [], _ => none
  | (k, v) :: rest, key => if k == key then some v else lookupField rest key

/-- Property read `v[key]`.  `none` models the TypeError thrown when reading
a property of `null` or `undefined`; on any other non-object the read
yields `undefined`, and on an object it is field lookup defaulting to
`undefined`. -/
def getProp? (v : JsValue) (key : String) : Option JsValue :=
  match v with
  | .null => none
  | .undefined => none
  | .obj fields => some ((lookupField fields key).getD .undefined)
  | _ => some .undefined

/-- Property read in a context where the receiver is known not to be
`null`/`undefined` (e.g. guarded by a truthiness check, as in all the
classifiers below). -/
def getProp (v : JsValue) (key : String) : JsValue :=
  (getProp? v key).getD .undefined

/-- `typeof v === "string"`. -/
def isString : JsValue → Bool
  | .str _ => true
  | _ => false

/-- `typeof v !== "undefined"`. -/
def isDefined : JsValue → Bool
  | .undefined => false
  | _ => true

/-- Strict equality `v === s` against a string literal. -/
def strEq (v : JsValue) (s : String) : Bool :=
  match v with
  | .str t => t == s
  | _ => false

/-- `data && data.jsonrpc === "2.0" && typeof data.method === "string"`
(src/src/index.ts lines 29-31). -/
def isJsonRpcRequest (data : JsValue) : Bool :=
  truthy data && strEq (getProp data "jsonrpc") "2.0"
    && isString (getProp data "method")

/-- `data && data.jsonrpc === "2.0" && typeof data.result !== "undefined"`
(lines 33-35). -/
def isJsonRpcSuccessResponse (data : JsValue) : Bool :=
  truthy data && strEq (getProp data "jsonrpc") "2.0"
    && isDefined (getProp data "result")

/-- `data && data.jsonrpc === "2.0" && typeof data.error !== "undefined"`
(lines 37-39). -/
def isJsonRpcErrorResponse (data : JsValue) : Bool :=
  truthy data && strEq (getProp data "jsonrpc") "2.0"
    && isDefined (getProp data "error")

/-! ## generateUUID (lines 41-46)

`generateUUID` draws four samples of `Math.random()` (scaled to an integer
below `Number.MAX_SAFE_INTEGER`), renders each in base 16 exactly as
`Number.prototype.toString(16)` does, and joins them with a hyphen.  The
random source is modelled as the list of drawn sample values. -/

/-- One base-16 digit character, as produced by `toString(16)`
(digits `0`-`9` then lowercase `a`-`f`). -/
def hexChar (n : Nat) : Char :=
  if n < 10 then Char.ofNat (48 + n) else Char.ofNat (87 + n)

/-- Big-endian hex digits of `n` (empty for `0`); fuel-structured so that it
reduces definitionally. Any fuel of at least `n` gives the digits of `n`. -/
def toHexAux : Nat → Nat → List Char
  | 0, _ => []
  | fuel + 1, n => if n = 0 then [] else toHexAux fuel (n / 16) ++ [hexChar (n % 16)]

/-- The characters of `n.toString(16)`. -/
def natToHexD (n : Nat) : List Char :=
  if n = 0 then ['0'] else toHexAux n n

/-- `Array.prototype.join("-")` at the character level. -/
def joinDashD : List (List Char) → List Char
  | [] => []
  | [s] => s
  | s :: t :: rest => s ++ '-' :: joinDashD (t :: rest)

/-- `generateUUID()` as a function of the four `Math.random()` samples it
draws. -/
def generateUUID (samples : List Nat) : String :=
  String.mk (joinDashD (samples.map natToHexD))

/-- Numeric value of a hex digit character (inverse of `hexChar` on digits). -/
def hexVal (c : Char) : Nat :=
  if 97 ≤ c.toNat then c.toNat - 87 else c.toNat - 48

/-- Big-endian hex parsing; left inverse of hex rendering. -/
def fromHexD (ds : List Char) : Nat :=
  ds.foldl (fun a c => 16 * a + hexVal c) 0

/-- The four random samples consumed by the `k`-th call to `generateUUID`
when `Math.random()` yields the value stream `stream`. -/
def samplesOf (stream : Nat → Nat) (k : Nat) : List Nat :=
  [stream (4 * k), stream (4 * k + 1), stream (4 * k + 2), stream (4 * k + 3)]

/-- The request id generated by the `k`-th call issued by one client. -/
def idOfCall (stream : Nat → Nat) (k : Nat) : String :=
  generateUUID (samplesOf stream k)

/-! ## defer (lines 48-76)

`defer(timeout)` produces a single-resolution promise with explicit
`resolve`/`reject` triggers; if `timeout` is non-zero a timer is armed that
rejects with `Error("timeout")` when it fires, and both triggers call
`clearTimeout` first.  The promise is modelled as a state: pending or
settled, together with the armed timer's absolute deadline (`none` when no
timer is armed or it has been cleared).  `fireAt t` models the timer
callback running at wall-clock time `t`: it has an effect only when a timer
is armed with deadline exactly `t`. -/

/-- How a promise settled. -/
inductive Settlement where
  | resolvedWith : JsValue → Settlement
  | rejectedWith : JsValue → Settlement

/-- State of one `defer`-created promise plus its timer. -/
structure Deferred where
  state : Option Settlement
  timerDeadline : Option Nat

/-- The `new Error("timeout")` value the armed timer rejects with. -/
def timeoutError : JsValue :=
  .obj [("name", .str "Error"), ("message", .str "timeout")]

/-- `defer(timeout)` called at wall-clock time `now`: pending, with a timer
armed for `now + timeout` unless `timeout` is `0` (falsy). -/
def defer (now : Nat) (timeout : Nat) : Deferred :=
  { state := none
    timerDeadline := if timeout = 0 then none else some (now + timeout) }

/-- `deferred.resolve(value)`: clears the timer, then resolves — a no-op on
the state if the promise already settled (promises are single-resolution). -/
def Deferred.resolveD (d : Deferred) (v : JsValue) : Deferred :=
  { state := match d.state with
      | none => some (.resolvedWith v)
      | some s => some s
    timerDeadline := none }

/-- `deferred.reject(reason)`: clears the timer, then rejects — a no-op on
the state if the promise already settled. -/
def Deferred.rejectD (d : Deferred) (e : JsValue) : Deferred :=
  { state := match d.state with
      | none => some (.rejectedWith e)
      | some s => some s
    timerDeadline := none }

/-- The timer callback running at time `t`: it fires only if a timer is
still armed with deadline exactly `t`, and then rejects the promise with
`Error("timeout")`. -/
def Deferred.fireAt (d : Deferred) (t : Nat) : Deferred :=
  if d.timerDeadline = some t then
    { state := match d.state with
        | none => some (.rejectedWith timeoutError)
        | some s => some s
      timerDeadline := none }
  else d

/-! ## ChannelServer (lines 78-173) -/

/-- A registered handler.  `handler(...args)` is awaited inside
`try`/`catch`, so a synchronous throw and a rejecting promise are
indistinguishable to the caller; both are the `.error` case, carrying the
thrown/rejected value. -/
abbrev HandlerFn := List JsValue → Except JsValue JsValue

/-- One own enumerable property of the capability object handed to
`ChannelServer`: either function-valued or not. -/
inductive CapProp where
  | fn : HandlerFn → CapProp
  | value : JsValue → CapProp

/-- Constructor lines 94-100: every function-valued own property of the
capability object is registered in the method table; non-function
properties are skipped.  Keys of a JS object are unique. -/
def buildHandlers : List (String × CapProp) → List (String × HandlerFn)
  | [] => []
  | (k, .fn f) :: rest => (k, f) :: buildHandlers rest
  | (_, .value _) :: rest => buildHandlers rest

/-- The JSON-RPC error object `{code, message}` or `{code, message, data}`. -/
def errObject (code : Int) (message : String) (data : Option JsValue) : JsValue :=
  .obj (("code", .num code) :: ("message", .str message) ::
    (match data with
     | some d => [("data", d)]
     | none => []))

/-- A `JsonRpcErrorResponse` literal as built by `#handleMessage`. -/
def errorResponse (code : Int) (message : String) (data : Option JsValue)
    (id : JsValue) : JsValue :=
  .obj [("jsonrpc", .str "2.0"), ("error", errObject code message data), ("id", id)]

/-- A `JsonRpcSuccessResponse` literal as built by `#handleMessage`. -/
def successResponse (result : JsValue) (id : JsValue) : JsValue :=
  .obj [("jsonrpc", .str "2.0"), ("result", result), ("id", id)]

/-- JavaScript `a || b`. -/
def jsOr (a b : JsValue) : JsValue :=
  if truthy a then a else b

/-- Spreading `...v` into an argument list: arrays spread to their elements,
strings to their characters, anything else throws a TypeError (caught by
the `try` around the handler call). -/
def jsSpreadArgs : JsValue → Except JsValue (List JsValue)
  | .arr xs => .ok xs
  | .str s => .ok (s.data.map fun c => .str (String.singleton c))
  | _ => .error (.str "TypeError")

/-- The request object built by `#sendRequest` (lines 228-233). -/
def rpcRequest (method : String) (args : List JsValue) (id : JsValue) : JsValue :=
  .obj [("jsonrpc", .str "2.0"), ("method", .str method),
        ("params", .arr args), ("id", id)]

/-- The TypeError thrown by an ES private-member access (`this.#x`) whose
receiver does not carry the class's private brand. -/
def brandCheckMsg : String := "TypeError: private brand check failed"

/-- `ChannelServer.#handleMessage` (lines 124-172) as a function of the
receiver it is invoked on.  Line 121 assigns the method UNBOUND as
`port1.onmessage`, so when a message arrives `this` is the MessagePort,
which does not carry `ChannelServer`'s private brand; `thisHasBrand` says
whether `this` is the constructing server instance.  `.ok reply` means the
invocation posted exactly that reply; `.error` means it threw (the method
is async, so the throw surfaces as an unhandled rejection) and posted
nothing.  Throw points, in source order: reading `data.id` (line 133)
throws on a `null`/`undefined` payload; `this.#channel` (line 135) and
`this.#handlers` (line 139) throw the brand-check TypeError on an unbound
invocation.  Only with a branded receiver does the dispatch run: `-32600`
with `data.id || null` for an unclassifiable payload, `-32601` for an
unregistered method, and otherwise the awaited handler outcome becomes a
success reply or a `-32603` failure carrying the thrown value as `data`. -/
def handleMessage (thisHasBrand : Bool) (handlers : List (String × HandlerFn))
    (data : JsValue) : Except String JsValue :=
  if isJsonRpcRequest data then
    if thisHasBrand then
      match getProp data "method" with
      | .str m =>
        match handlers.lookup m with
        | none => .ok (errorResponse (-32601) "Method not found" none (getProp data "id"))
        | some handler =>
          match jsSpreadArgs (jsOr (getProp data "params") (.arr [])) with
          | .error e => .ok (errorResponse (-32603) "Internal error" (some e) (getProp data "id"))
          | .ok args =>
            match handler args with
            | .ok result => .ok (successResponse result (getProp data "id"))
            | .error err => .ok (errorResponse (-32603) "Internal error" (some err) (getProp data "id"))
      | _ => .error "unreachable: isJsonRpcRequest guarantees a string method"
    else .error brandCheckMsg
  else
    match getProp? data "id" with
    | none => .error "TypeError: data is null or undefined"
    | some idv =>
      if thisHasBrand then
        .ok (errorResponse (-32600) "Invalid Request" none (jsOr idv .null))
      else .error brandCheckMsg

/-- The listener the program actually installs (line 121): `#handleMessage`
unbound, so `this` is port1 and the brand check fails. -/
def port1MessageListener (handlers : List (String × HandlerFn)) (data : JsValue) :
    Except String JsValue :=
  handleMessage false handlers data

/-! ## ChannelClient (lines 181-287) -/

/-- The client's pending-call `Map` (`#deferreds`).  Its keys are always the
generated string ids, and the code only uses pointwise `get`/`set`/`has`/
`delete`, so a function model is faithful. -/
def DMap : Type := String → Option Deferred

/-- `Map.prototype.set`. -/
def setEntry (m : DMap) (k : String) (d : Deferred) : DMap :=
  fun x => if x = k then some d else m x

/-- `Map.prototype.delete`. -/
def delEntry (m : DMap) (k : String) : DMap :=
  fun x => if x = k then none else m x

/-- A freshly constructed client's empty `#deferreds` map. -/
def emptyDMap : DMap := fun _ => none

/-- `timeout || 1000` (line 201): the configured per-call timeout, defaulting
to 1000 ms when unspecified (or explicitly `0`, which is falsy). -/
def clientTimeout : Option Nat → Nat
  | some t => if t = 0 then 1000 else t
  | none => 1000

/-- `ChannelClient.#sendRequest` (lines 214-236), after the handshake port
has resolved: generate a fresh id from the next four random samples,
register a pending call backed by `defer(this.#timeout)` created at time
`now`, and post the request.  Returns the updated pending-call map and the
posted request.  (The `.then`/`.catch` continuations that delete the entry
once the promise settles are modelled separately by `delEntry`.) -/
def sendRequest (cfg : Option Nat) (now : Nat) (m : DMap) (method : String)
    (args : List JsValue) (samples : List Nat) : DMap × JsValue :=
  (setEntry m (generateUUID samples) (defer now (clientTimeout cfg)),
   rpcRequest method args (.str (generateUUID samples)))

/-- What `#portMessageHandler` did with an inbound port message. -/
inductive PortAction where
  | calledResolve : String → JsValue → PortAction
  | calledReject : String → JsValue → PortAction
  | ignoredUnknownId : PortAction
  | warnedUnknown : PortAction

/-- `ChannelClient.#portMessageHandler` (lines 238-253) as a function of its
receiver.  Line 272 assigns the method UNBOUND as `port.onmessage`, so
`this` is the MessagePort: `this.#deferreds.has(id)` (lines 242/247)
throws the brand-check TypeError in both the success and the error branch,
and only the `console.warn` branch (which touches no private member)
survives.  With a branded receiver the function resolves the matching
pending call on a success response and rejects it with the structured
error object on an error response; a non-string id can never match a key
of `#deferreds`. -/
def portMessageHandler (thisHasBrand : Bool) (m : DMap) (data : JsValue) :
    Except String (DMap × PortAction) :=
  if isJsonRpcSuccessResponse data then
    if thisHasBrand then
      .ok (match getProp data "id" with
        | .str id =>
          match m id with
          | some d => (setEntry m id (d.resolveD (getProp data "result")),
                       .calledResolve id (getProp data "result"))
          | none => (m, .ignoredUnknownId)
        | _ => (m, .ignoredUnknownId))
    else .error brandCheckMsg
  else if isJsonRpcErrorResponse data then
    if thisHasBrand then
      .ok (match getProp data "id" with
        | .str id =>
          match m id with
          | some d => (setEntry m id (d.rejectD (getProp data "error")),
                       .calledReject id (getProp data "error"))
          | none => (m, .ignoredUnknownId)
        | _ => (m, .ignoredUnknownId))
    else .error brandCheckMsg
  else .ok (m, .warnedUnknown)

/-- The handler the program actually installs (line 272):
`#portMessageHandler` unbound, so `this` is the transferred port and the
brand check fails. -/
def portOnMessage (m : DMap) (data : JsValue) : Except String (DMap × PortAction) :=
  portMessageHandler false m data

/-! ## Handshake (server constructor lines 104-120, client lines 255-286) -/

/-- `MessageTypes.HandShakeRequest`. -/
def handshakeRequestType : String := "@channel-rpc/HANDSHAKE_REQUEST"

/-- `MessageTypes.HandShakeResponse`. -/
def handshakeResponseType : String := "@channel-rpc/HANDSHAKE_RESPONSE"

/-- The handshake request message the client posts every 100 ms. -/
def handshakeRequestMsg (channelId : String) : JsValue :=
  .obj [("type", .str handshakeRequestType), ("channelId", .str channelId)]

/-- The handshake response message the server posts back to the request's
source (accompanied by the transferred `MessageChannel` port2). -/
def handshakeResponseMsg (channelId : String) : JsValue :=
  .obj [("type", .str handshakeResponseType), ("channelId", .str channelId)]

/-- A window `message` event as the handshake listeners see it: the payload,
the sender's origin, and the transferred ports (identified by number). -/
structure WinMessageEvent where
  data : JsValue
  origin : String
  ports : List Nat

/-- The listener `ChannelServer`'s constructor installs on the source window
(lines 104-120): on a handshake request stamped with this server's
`channelId` it posts the handshake response (transferring port2) back to
the event's source; on anything else it does nothing.  The result is the
message posted to `ev.source`, if any.  Note the listener never reads
`ev.origin`. -/
def serverWindowListener (channelId : String) (ev : WinMessageEvent) : Option JsValue :=
  if truthy ev.data && strEq (getProp ev.data "type") handshakeRequestType
      && strEq (getProp ev.data "channelId") channelId then
    some (handshakeResponseMsg channelId)
  else none

/-- Observable state of the client's handshake (`#startHandshake`): whether
the port promise resolved (and to which transferred port), whether the
100 ms probe interval is still running, and whether the window listener is
still installed. -/
structure ClientHandshakeState where
  established : Option Nat
  intervalActive : Bool
  listenerInstalled : Bool

/-- State right after `ChannelClient` construction: probing, listening, no
port yet. -/
def initialHandshakeState : ClientHandshakeState :=
  { established := none, intervalActive := true, listenerInstalled := true }

/-- The handshake listener installed by `#startHandshake` (lines 259-274):
on a handshake response stamped with this client's `channelId` that
carries a transferred port, it cancels the probe interval and resolves the
port promise with the first transferred port; on anything else it leaves
all state unchanged.  The `removeEventListener` call on the match path
targets the wrong object — `this.target` (line 267) — while the handler
was added on `self`/globalThis (line 275), so the listener in fact stays
installed (modelled for a same-origin target; on a cross-origin target
that call would itself throw — no claim here evaluates the match
branch). -/
def clientHandshakeHandler (channelId : String) (st : ClientHandshakeState)
    (ev : WinMessageEvent) : ClientHandshakeState :=
  if truthy ev.data && strEq (getProp ev.data "type") handshakeResponseType
      && strEq (getProp ev.data "channelId") channelId
      && !ev.ports.isEmpty then
    { established := some (ev.ports.headD 0)
      intervalActive := false
      listenerInstalled := true }
  else st

/-! ## Concrete capability fixtures (used to instantiate the theorems) -/

/-- The README's example handler `add: (a, b) => a + b`. -/
def addHandler : HandlerFn := fun args =>
  match args with
  | [.num a, .num b] => .ok (.num (a + b))
  | _ => .error (.str "wrong arguments")

/-- A handler that always throws. -/
def throwHandler : HandlerFn := fun _ => .error (.str "kaboom")

/-- A handler whose awaited result is `undefined`. -/
def undefHandler : HandlerFn := fun _ => .ok .undefined

/-! ## Helper lemmas -/

/-- Strict string comparison fails on any value other than that string. -/
lemma strEq_eq_false (v : JsValue) (s : String) (h : v ≠ .str s) : strEq v s = false := by
  cases v with
  | str t => exact beq_eq_false_iff_ne.mpr fun he => h (by rw [he])
  | undefined => rfl
  | null => rfl
  | bool b => rfl
  | num n => rfl
  | arr xs => rfl
  | obj fs => rfl

lemma setEntry_self (m : DMap) (k : String) (d : Deferred) : setEntry m k d k = some d := by
  simp [setEntry]

lemma delEntry_self (m : DMap) (k : String) : delEntry m k k = none := by
  simp [delEntry]

/-- A bound invocation of `#handleMessage` on a request built by the client
reduces to a dispatch on the method table and the handler's outcome (this
is the dead intended path; the installed listener is unbound). -/
lemma handleMessage_request_eq (handlers : List (String × HandlerFn)) (m : String)
    (args : List JsValue) (idv : JsValue) :
    handleMessage true handlers (rpcRequest m args idv) =
      match handlers.lookup m with
      | none => .ok (errorResponse (-32601) "Method not found" none idv)
      | some h =>
        match h args with
        | .ok r => .ok (successResponse r idv)
        | .error e => .ok (errorResponse (-32603) "Internal error" (some e) idv) := rfl

lemma isSuccess_successResponse (v idv : JsValue) :
    isJsonRpcSuccessResponse (successResponse v idv) = isDefined v := rfl

/-- The installed (unbound) client port handler on a success response either
throws the brand-check TypeError before touching anything (defined
`result`) or merely warns (`result: undefined`); it never changes the map
and never settles a deferred. -/
lemma portOnMessage_success (m : DMap) (v idv : JsValue) :
    portOnMessage m (successResponse v idv) =
      (if isDefined v then .error brandCheckMsg else .ok (m, .warnedUnknown)) := by
  cases hv : isDefined v with
  | false =>
    have hvu : v = .undefined := by cases v <;> simp_all [isDefined]
    subst hvu
    rfl
  | true =>
    simp only [portOnMessage, portMessageHandler, isSuccess_successResponse, hv, if_true]
    rfl

lemma clientTimeout_ne_zero (cfg : Option Nat) : clientTimeout cfg ≠ 0 := by
  cases cfg with
  | none => simp [clientTimeout]
  | some t =>
    by_cases h : t = 0 <;> simp [clientTimeout, h]

lemma defer_clientTimeout_deadline (now : Nat) (cfg : Option Nat) :
    (defer now (clientTimeout cfg)).timerDeadline = some (now + clientTimeout cfg) := by
  simp [defer, clientTimeout_ne_zero cfg]

/-- A timer armed by `defer` at `now` for a non-zero `T` fires exactly at
`now + T` (rejecting with the timeout error) and at no other time. -/
lemma defer_fireAt (now T t : Nat) (hT : T ≠ 0) :
    (defer now T).fireAt t =
      if t = now + T then ⟨some (.rejectedWith timeoutError), none⟩ else defer now T := by
  by_cases h : t = now + T
  · subst h
    simp [Deferred.fireAt, defer, hT]
  · have h2 : ¬(now + T = t) := fun e => h e.symm
    simp [Deferred.fireAt, defer, hT, h, h2]

/-! ### Hex rendering and id uniqueness machinery -/

lemma hexVal_hexChar : ∀ k, k < 16 → hexVal (hexChar k) = k := by decide

lemma hexChar_ne_dash : ∀ k, k < 16 → hexChar k ≠ '-' := by decide

lemma toHexAux_foldl : ∀ (fuel n a : Nat), n ≤ fuel →
    List.foldl (fun a c => 16 * a + hexVal c) a (toHexAux fuel n) =
      a * 16 ^ (toHexAux fuel n).length + n := by
  intro fuel
  induction fuel with
  | zero =>
    intro n a h
    obtain rfl : n = 0 := Nat.le_zero.mp h
    simp [toHexAux]
  | succ fuel ih =>
    intro n a h
    by_cases h0 : n = 0
    · subst h0; simp [toHexAux]
    · have hdiv : n / 16 ≤ fuel := by
        have hlt : n / 16 < n := Nat.div_lt_self (Nat.pos_of_ne_zero h0) (by norm_num)
        omega
      simp only [toHexAux, if_neg h0, List.foldl_append, List.length_append,
        List.length_cons, List.length_nil, List.foldl_cons, List.foldl_nil]
      rw [ih (n / 16) a hdiv, hexVal_hexChar (n % 16) (Nat.mod_lt n (by norm_num))]
      have hrw : 16 * (a * 16 ^ (toHexAux fuel (n / 16)).length + n / 16) + n % 16 =
          a * (16 ^ (toHexAux fuel (n / 16)).length * 16) + (16 * (n / 16) + n % 16) := by
        ring
      rw [hrw, Nat.div_add_mod, ← pow_succ]

/-- Parsing is a left inverse of the hex rendering (so rendering is
injective). -/
lemma fromHexD_natToHexD (n : Nat) : fromHexD (natToHexD n) = n := by
  by_cases h0 : n = 0
  · subst h0; rfl
  · simp only [fromHexD, natToHexD, if_neg h0]
    rw [toHexAux_foldl n n 0 le_rfl]
    simp

lemma natToHexD_injective : Function.Injective natToHexD := by
  intro a b h
  have ha := fromHexD_natToHexD a
  rw [h, fromHexD_natToHexD] at ha
  exact ha.symm

lemma dash_not_mem_toHexAux : ∀ (fuel n : Nat), '-' ∉ toHexAux fuel n := by
  intro fuel
  induction fuel with
  | zero => intro n; simp [toHexAux]
  | succ fuel ih =>
    intro n
    by_cases h0 : n = 0
    · simp [toHexAux, h0]
    · intro hmem
      simp only [toHexAux, if_neg h0, List.mem_append, List.mem_singleton] at hmem
      rcases hmem with h1 | h1
      · exact ih (n / 16) h1
      · exact hexChar_ne_dash (n % 16) (Nat.mod_lt n (by norm_num)) h1.symm

lemma dash_not_mem_natToHexD (n : Nat) : '-' ∉ natToHexD n := by
  by_cases h0 : n = 0
  · subst h0; decide
  · simp only [natToHexD, if_neg h0]
    exact dash_not_mem_toHexAux n n

/-- Cutting two dash-separated concatenations at the first dash: if the
prefixes are dash-free, both parts agree. -/
lemma append_dash_inj : ∀ (a b x y : List Char), '-' ∉ a → '-' ∉ b →
    a ++ '-' :: x = b ++ '-' :: y → a = b ∧ x = y := by
  intro a
  induction a with
  | nil =>
    intro b x y _ hb h
    cases b with
    | nil =>
      simp only [List.nil_append] at h
      exact ⟨rfl, (List.cons.inj h).2⟩
    | cons c bs =>
      simp only [List.nil_append, List.cons_append] at h
      obtain ⟨h1, h2⟩ := List.cons.inj h
      exact absurd (h1 ▸ List.mem_cons_self c bs) hb
  | cons c as ih =>
    intro b x y ha hb h
    cases b with
    | nil =>
      simp only [List.cons_append, List.nil_append] at h
      obtain ⟨h1, h2⟩ := List.cons.inj h
      exact absurd (h1 ▸ List.mem_cons_self c as) ha
    | cons c2 bs =>
      simp only [List.cons_append] at h
      obtain ⟨h1, h2⟩ := List.cons.inj h
      obtain ⟨hab, hxy⟩ := ih bs x y (fun hm => ha (List.mem_cons_of_mem c hm))
        (fun hm => hb (List.mem_cons_of_mem c2 hm)) h2
      exact ⟨by rw [h1, hab], hxy⟩

/-- `join("-")` is injective on equally long lists of dash-free segments. -/
lemma joinDashD_inj : ∀ (l1 l2 : List (List Char)),
    (∀ x ∈ l1, '-' ∉ x) → (∀ x ∈ l2, '-' ∉ x) →
    l1.length = l2.length → joinDashD l1 = joinDashD l2 → l1 = l2 := by
  intro l1
  induction l1 with
  | nil =>
    intro l2 _ _ hlen _
    cases l2 with
    | nil => rfl
    | cons s2 rest2 => simp at hlen
  | cons s rest ih =>
    intro l2 h1 h2 hlen hj
    cases l2 with
    | nil => simp at hlen
    | cons s2 rest2 =>
      cases rest with
      | nil =>
        cases rest2 with
        | nil =>
          simp only [joinDashD] at hj
          rw [hj]
        | cons t2 r2 => simp at hlen
      | cons t r =>
        cases rest2 with
        | nil => simp at hlen
        | cons t2 r2 =>
          simp only [joinDashD] at hj
          obtain ⟨hs, hrest⟩ := append_dash_inj s s2 (joinDashD (t :: r)) (joinDashD (t2 :: r2))
            (h1 s (List.mem_cons_self s (t :: r))) (h2 s2 (List.mem_cons_self s2 (t2 :: r2))) hj
          have hr := ih (t2 :: r2) (fun x hx => h1 x (List.mem_cons_of_mem s hx))
            (fun x hx => h2 x (List.mem_cons_of_mem s2 hx)) (by simpa using hlen) hrest
          rw [hs, hr]

/-- `generateUUID` is injective on sample lists of equal length: ids collide
only when the drawn random samples coincide. -/
lemma generateUUID_inj (s1 s2 : List Nat) (hl : s1.length = s2.length)
    (h : generateUUID s1 = generateUUID s2) : s1 = s2 := by
  have hd : joinDashD (s1.map natToHexD) = joinDashD (s2.map natToHexD) :=
    congrArg String.data h
  have hmap := joinDashD_inj (s1.map natToHexD) (s2.map natToHexD)
    (fun x hx => by
      obtain ⟨n, hn, rfl⟩ := List.mem_map.mp hx
      exact dash_not_mem_natToHexD n)
    (fun x hx => by
      obtain ⟨n, hn, rfl⟩ := List.mem_map.mp hx
      exact dash_not_mem_natToHexD n)
    (by simp [hl]) hd
  exact List.map_injective_iff.mpr natToHexD_injective hmap

/-! ## Claim theorems -/

/-- Claim C1 (the unbound handler defeats the documented behavior): the
stub call `add(2, 3)` from the README is never answered.  `#handleMessage`
is installed unbound (line 121), so it runs with `this` = port1, which
lacks the server's private brand, and throws at `this.#handlers.get`
(line 139) before any reply is built.  A correctly bound invocation would
compute exactly the documented success reply `5` — the dead intended path.
The call's pending entry is settled only by its timeout rejection. -/
theorem unbound_handler_breaks_stub_call :
    port1MessageListener (buildHandlers [("add", .fn addHandler)])
        (sendRequest none 0 emptyDMap "add" [.num 2, .num 3] [1, 2, 3, 4]).2 =
      .error brandCheckMsg ∧
    handleMessage true (buildHandlers [("add", .fn addHandler)])
        (sendRequest none 0 emptyDMap "add" [.num 2, .num 3] [1, 2, 3, 4]).2 =
      .ok (successResponse (.num 5) (.str (generateUUID [1, 2, 3, 4]))) ∧
    (sendRequest none 0 emptyDMap "add" [.num 2, .num 3] [1, 2, 3, 4]).1
        (generateUUID [1, 2, 3, 4]) = some (defer 0 1000) ∧
    ((defer 0 1000).fireAt 1000).state = some (.rejectedWith timeoutError) :=
  ⟨rfl, rfl, rfl, rfl⟩

/-- Claim C2 (the invalid-request path can never reply): for a `null`
payload the listener throws reading `data.id` (line 133); for every other
unclassifiable payload (here the empty object) it builds the -32600
response but, running unbound (line 121), throws the brand-check TypeError
at `this.#channel.port1.postMessage` (line 135).  No -32600 reply is ever
posted; only a bound invocation would have posted it, with `id: null`. -/
theorem invalid_payload_listener_throws :
    port1MessageListener [] JsValue.null = .error "TypeError: data is null or undefined" ∧
    port1MessageListener [] (.obj []) = .error brandCheckMsg ∧
    handleMessage true [] (.obj []) =
      .ok (errorResponse (-32600) "Invalid Request" none .null) :=
  ⟨rfl, rfl, rfl⟩

/-- Claim C3 (no -32601 reply is ever posted): on a valid request for the
unregistered method `nope`, the unbound `#handleMessage` throws at
`this.#handlers.get` (line 139) before the -32601 response is built; only
a bound invocation would compute it.  Even if such a reply reached the
client, the unbound `#portMessageHandler` would throw at
`this.#deferreds.has` (line 247) instead of rejecting the call, so the
stub call is settled by the timeout `Error("timeout")` — which has no
`code` property at all, in particular not -32601. -/
theorem unknown_method_never_answered :
    port1MessageListener [] (rpcRequest "nope" [] (.str "id-1")) = .error brandCheckMsg ∧
    handleMessage true [] (rpcRequest "nope" [] (.str "id-1")) =
      .ok (errorResponse (-32601) "Method not found" none (.str "id-1")) ∧
    portOnMessage (setEntry emptyDMap "id-1" (defer 0 1000))
        (errorResponse (-32601) "Method not found" none (.str "id-1")) =
      .error brandCheckMsg ∧
    getProp timeoutError "code" = .undefined :=
  ⟨rfl, rfl, rfl, rfl⟩

/-- Claim C4 (no -32603 reply is ever posted): the unbound `#handleMessage`
throws at `this.#handlers.get` (line 139) BEFORE the `try` block around
the handler call, so a throwing handler is never even invoked and no
-32603 reply carrying the thrown value is posted; only a bound invocation
would compute it.  Even if it reached the client, the unbound
`#portMessageHandler` would throw rather than reject the pending call. -/
theorem throwing_handler_never_answered :
    port1MessageListener [("boom", throwHandler)] (rpcRequest "boom" [] (.str "id-2")) =
      .error brandCheckMsg ∧
    handleMessage true [("boom", throwHandler)] (rpcRequest "boom" [] (.str "id-2")) =
      .ok (errorResponse (-32603) "Internal error" (some (.str "kaboom")) (.str "id-2")) ∧
    portOnMessage (setEntry emptyDMap "id-2" (defer 0 1000))
        (errorResponse (-32603) "Internal error" (some (.str "kaboom")) (.str "id-2")) =
      .error brandCheckMsg :=
  ⟨rfl, rfl, rfl⟩

/-- Claim C5: a `#sendRequest` call registers a pending entry under its fresh
id, backed by `defer` with the configured timeout (1000 ms when
unspecified); the armed timer fires exactly at creation time plus that
timeout and at no other time, rejecting with the timeout error; the
settlement continuations (lexically bound arrows) then remove the entry
from the tracking map; a response arriving afterwards cannot touch the
settled future — the installed (unbound) port handler throws the
brand-check TypeError before reading the map for any classified response
and merely warns otherwise — and an already-rejected deferred is never
re-settled by a later resolve or reject. -/
theorem pending_call_timeout_behavior (cfg : Option Nat) (now : Nat) (mp : DMap)
    (method : String) (args : List JsValue) (samples : List Nat) (t : Nat) (v : JsValue) :
    clientTimeout none = 1000 ∧
    (sendRequest cfg now mp method args samples).1 (generateUUID samples) =
      some (defer now (clientTimeout cfg)) ∧
    (defer now (clientTimeout cfg)).timerDeadline = some (now + clientTimeout cfg) ∧
    (defer now (clientTimeout cfg)).fireAt t =
      (if t = now + clientTimeout cfg then ⟨some (.rejectedWith timeoutError), none⟩
       else defer now (clientTimeout cfg)) ∧
    delEntry (setEntry (sendRequest cfg now mp method args samples).1 (generateUUID samples)
        ((defer now (clientTimeout cfg)).fireAt (now + clientTimeout cfg)))
      (generateUUID samples) (generateUUID samples) = none ∧
    portOnMessage
        (delEntry (setEntry (sendRequest cfg now mp method args samples).1
            (generateUUID samples)
            ((defer now (clientTimeout cfg)).fireAt (now + clientTimeout cfg)))
          (generateUUID samples))
        (successResponse v (.str (generateUUID samples))) =
      (if isDefined v then .error brandCheckMsg
       else .ok (delEntry (setEntry (sendRequest cfg now mp method args samples).1
              (generateUUID samples)
              ((defer now (clientTimeout cfg)).fireAt (now + clientTimeout cfg)))
            (generateUUID samples), .warnedUnknown)) ∧
    Deferred.resolveD ⟨some (.rejectedWith timeoutError), none⟩ v =
      ⟨some (.rejectedWith timeoutError), none⟩ ∧
    Deferred.rejectD ⟨some (.rejectedWith timeoutError), none⟩ v =
      ⟨some (.rejectedWith timeoutError), none⟩ := by
  refine ⟨rfl, setEntry_self mp _ _, defer_clientTimeout_deadline now cfg,
    defer_fireAt now (clientTimeout cfg) t (clientTimeout_ne_zero cfg),
    delEntry_self _ _, ?_, rfl, rfl⟩
  exact portOnMessage_success _ v _

/-- Claim C7 (the code lacks the documented origin validation): the server's
handshake listener in src never reads the event's origin and `ChannelServer`
takes no origin option, so a handshake request with a matching `channelId`
is accepted and answered from EVERY origin — there is no input on which a
mismatched origin raises a validation failure. -/
theorem server_accepts_handshake_from_any_origin (origin : String) :
    serverWindowListener "c" ⟨handshakeRequestMsg "c", origin, []⟩ =
      some (handshakeResponseMsg "c") := rfl

/-- Claim C6: a message whose `channelId` is not the receiving endpoint's
channel identifier is silently ignored by both handshake listeners: the
server's listener posts nothing and the client's listener leaves its whole
observable state (port promise, probe interval, listener registration)
unchanged.  Hence two channels with different ids sharing one transport
never react to each other's traffic. -/
theorem mismatched_channelId_ignored (cid : String) (st : ClientHandshakeState)
    (ev : WinMessageEvent) (h : getProp ev.data "channelId" ≠ .str cid) :
    serverWindowListener cid ev = none ∧ clientHandshakeHandler cid st ev = st := by
  have hs : strEq (getProp ev.data "channelId") cid = false := strEq_eq_false _ _ h
  constructor
  · simp [serverWindowListener, hs]
  · simp [clientHandshakeHandler, hs]

/-- Claim C6, witness: a handshake stamped for channel `beta` is ignored by
endpoints of channel `alpha`. -/
theorem mismatched_channelId_witness :
    serverWindowListener "alpha"
        ⟨handshakeRequestMsg "beta", "https://site.example", [7]⟩ = none ∧
    clientHandshakeHandler "alpha" initialHandshakeState
        ⟨handshakeRequestMsg "beta", "https://site.example", [7]⟩ = initialHandshakeState :=
  mismatched_channelId_ignored "alpha" initialHandshakeState
    ⟨handshakeRequestMsg "beta", "https://site.example", [7]⟩
    (by
      intro h
      have h2 : JsValue.str "beta" = JsValue.str "alpha" := h
      exact absurd (JsValue.str.inj h2) (by decide))

/-- Claim C8: `defer` is single-resolution: whichever of explicit resolve,
explicit reject or the timer firing happens first determines the
settlement and all later calls leave the settled state unchanged; explicit
settlement clears the timer deadline so the timer can never fire
afterwards; and with a zero/absent timeout no timer is ever armed, so the
future never auto-rejects from elapsed time. -/
theorem deferred_single_settlement (now t k : Nat) (v e : JsValue) (s : Settlement)
    (dl : Option Nat) (d : Deferred) :
    ((Deferred.mk (some s) dl).resolveD v).state = some s ∧
    ((Deferred.mk (some s) dl).rejectD e).state = some s ∧
    ((Deferred.mk (some s) dl).fireAt t).state = some s ∧
    ((defer now (k + 1)).resolveD v).state = some (.resolvedWith v) ∧
    ((defer now (k + 1)).rejectD e).state = some (.rejectedWith e) ∧
    ((defer now (k + 1)).fireAt (now + (k + 1))).state = some (.rejectedWith timeoutError) ∧
    (d.resolveD v).timerDeadline = none ∧
    (d.rejectD e).timerDeadline = none ∧
    (d.resolveD v).fireAt t = d.resolveD v ∧
    (d.rejectD e).fireAt t = d.rejectD e ∧
    (defer now 0).timerDeadline = none ∧
    (defer now 0).fireAt t = defer now 0 ∧
    (defer now 0).state = none := by
  refine ⟨rfl, rfl, ?_, rfl, rfl, ?_, rfl, rfl, ?_, ?_, rfl, ?_, rfl⟩
  · by_cases h : dl = some t <;> simp [Deferred.fireAt, h]
  · simp [Deferred.fireAt, defer]
  · simp [Deferred.fireAt, Deferred.resolveD]
  · simp [Deferred.fireAt, Deferred.rejectD]
  · simp [Deferred.fireAt, defer]

/-- Claim C9, counterexample: the generated identifiers are pure renderings
of `Math.random()` samples, so two DISTINCT calls (here call number 0 and
call number 1 of the same client) receive the SAME identifier whenever the
random source repeats — nothing in the code guarantees uniqueness. -/
theorem duplicate_request_ids_possible :
    idOfCall (fun _ => 0) 0 = idOfCall (fun _ => 0) 1 ∧ (0 : Nat) ≠ 1 :=
  ⟨rfl, by decide⟩

/-- Claim C9 (amended): each call's identifier is freshly generated from the
four random samples the call draws, and identifiers of two calls differ
whenever their drawn sample sequences differ; uniqueness is only
probabilistic — equal samples yield equal identifiers. -/
theorem request_ids_differ_when_samples_differ (stream : Nat → Nat) (j k : Nat)
    (h : samplesOf stream j ≠ samplesOf stream k) :
    idOfCall stream j ≠ idOfCall stream k := by
  intro he
  exact h (generateUUID_inj (samplesOf stream j) (samplesOf stream k) rfl he)

/-- Claim C9, witness: with a non-repeating random stream, call 0 and call 1
get different identifiers. -/
theorem request_ids_differ_witness :
    idOfCall (fun i => i) 0 ≠ idOfCall (fun i => i) 1 :=
  request_ids_differ_when_samples_differ (fun i => i) 0 1 (by decide)

/-- Claim C10, counterexample: the claim's premise is false of the program —
no `result: undefined` reply is ever posted, because the unbound
`#handleMessage` (line 121) throws at `this.#handlers.get` (line 139)
before constructing any reply object. -/
theorem undefined_result_reply_never_posted :
    port1MessageListener [("u", undefHandler)]
        (sendRequest none 0 emptyDMap "u" [] [0, 0, 0, 0]).2 = .error brandCheckMsg ∧
    port1MessageListener [("u", undefHandler)]
        (sendRequest none 0 emptyDMap "u" [] [0, 0, 0, 0]).2 ≠
      .ok (successResponse .undefined (.str (generateUUID [0, 0, 0, 0]))) :=
  ⟨rfl, fun h => Except.noConfusion h⟩

/-- Claim C10 (amended): when a registered handler's awaited result is
`undefined`, the installed (unbound) server handler throws before
constructing the `result: undefined` reply, so that reply is never posted;
only a bound invocation would compute it, and the client's classifier
would recognize it neither as a success (it requires a defined `result`)
nor as a failure (no `error` field) — the installed client handler would
merely warn on it, leaving the map untouched.  Either way the pending call
is never resolved with the handler's return value and — still pending — is
settled only by its timer rejecting with the timeout error at the
configured deadline. -/
theorem undefined_result_settles_only_by_timeout
    (handlers : List (String × HandlerFn)) (m : String) (h : HandlerFn)
    (args : List JsValue) (cfg : Option Nat) (now : Nat) (mp : DMap) (samples : List Nat)
    (h1 : handlers.lookup m = some h) (h2 : h args = .ok JsValue.undefined) :
    port1MessageListener handlers (sendRequest cfg now mp m args samples).2 =
      .error brandCheckMsg ∧
    handleMessage true handlers (sendRequest cfg now mp m args samples).2 =
      .ok (successResponse .undefined (.str (generateUUID samples))) ∧
    isJsonRpcSuccessResponse (successResponse .undefined (.str (generateUUID samples))) = false ∧
    isJsonRpcErrorResponse (successResponse .undefined (.str (generateUUID samples))) = false ∧
    portOnMessage (sendRequest cfg now mp m args samples).1
        (successResponse .undefined (.str (generateUUID samples))) =
      .ok ((sendRequest cfg now mp m args samples).1, .warnedUnknown) ∧
    (sendRequest cfg now mp m args samples).1 (generateUUID samples) =
      some (defer now (clientTimeout cfg)) ∧
    (defer now (clientTimeout cfg)).state = none ∧
    ((defer now (clientTimeout cfg)).fireAt (now + clientTimeout cfg)).state =
      some (.rejectedWith timeoutError) := by
  refine ⟨rfl, ?_, rfl, rfl, rfl, setEntry_self mp _ _, rfl, ?_⟩
  · show handleMessage true handlers (rpcRequest m args (.str (generateUUID samples))) = _
    simp only [handleMessage_request_eq, h1, h2]
  · rw [defer_fireAt now (clientTimeout cfg) (now + clientTimeout cfg)
      (clientTimeout_ne_zero cfg)]
    simp

/-- Claim C10, witness: a handler returning `undefined`, with the default
1000 ms timeout. -/
theorem undefined_result_timeout_witness :
    port1MessageListener [("u", undefHandler)]
        (sendRequest none 0 emptyDMap "u" [] [0, 0, 0, 0]).2 = .error brandCheckMsg ∧
    ((defer 0 (clientTimeout none)).fireAt (0 + clientTimeout none)).state =
      some (.rejectedWith timeoutError) :=
  ⟨(undefined_result_settles_only_by_timeout [("u", undefHandler)] "u" undefHandler []
      none 0 emptyDMap [0, 0, 0, 0] rfl rfl).1,
   (undefined_result_settles_only_by_timeout [("u", undefHandler)] "u" undefHandler []
      none 0 emptyDMap [0, 0, 0, 0] rfl rfl).2.2.2.2.2.2.2⟩

end ChannelRpc
